import Mathlib

/-!
Shallow embedding of src/source/main.py (a phpMyAdmin scraping client).

HTML responses are modelled at the DOM level: a response carries both its
raw body text (used by the substring check for the login-form marker) and
its parsed document tree (what BeautifulSoup produces from that text).
The HTTP transport is an explicit input: each request's outcome is given
as an Except value, with transport-level failures (connection refused,
timeout, DNS, and the non-2xx statuses that raise_for_status turns into
exceptions) as an explicit error type.  Exceptions raised by the Python
code become an explicit error sum; the uncaught AttributeError produced
when .find returns None and a method is called on it is modelled by a
dedicated generic-fault constructor.
-/

/-- A DOM node: an element with tag name, attributes and children, or a
text node.  Attributes are an association list in document order. -/
inductive Node where
  | elem (tag : String) (attrs : List (String × String)) (children : List Node)
  | text (s : String)

/-- First value bound to a key in an attribute list (dict lookup). -/
def attrLookup (attrs : List (String × String)) (key : String) : Option String :=
  (attrs.find? (fun p => p.fst == key)).map (fun p => p.snd)

/-- Splits a character sequence on whitespace, dropping empty pieces;
the accumulator holds the current token reversed. -/
def splitWsAux : List Char → List Char → List (List Char)
  | [], acc => if acc.isEmpty then [] else [acc.reverse]
  | c :: rest, acc =>
      if c.isWhitespace then
        (if acc.isEmpty then [] else [acc.reverse]) ++ splitWsAux rest []
      else
        splitWsAux rest (c :: acc)

/-- Whitespace-separated tokens of a class attribute value, as bs4 treats
the multi-valued class attribute. -/
def classTokens (v : String) : List String :=
  (splitWsAux v.data []).map (fun l => String.mk l)

/-- Python str.strip: drop whitespace from both ends of the character
sequence. -/
def pyStrip (s : String) : String :=
  String.mk (((s.data.dropWhile Char.isWhitespace).reverse.dropWhile Char.isWhitespace).reverse)

/-- bs4 attribute filter: for the multi-valued class attribute the wanted
value must be one of the space-separated tokens; any other attribute must
be string-equal. -/
def attrValueMatches (attrs : List (String × String)) (key val : String) : Bool :=
  match attrLookup attrs key with
  | none => false
  | some v => if key == "class" then (classTokens v).contains val else v == val

/-- Whether a node matches a bs4 tag-name filter plus attribute filters. -/
def nodeMatches (n : Node) (tag : String) (filters : List (String × String)) : Bool :=
  match n with
  | .text _ => false
  | .elem t attrs _ => t == tag && filters.all (fun f => attrValueMatches attrs f.fst f.snd)

mutual

/-- All matching nodes among the nodes of a list and their descendants,
in document (pre-)order: bs4 find_all over a sequence of siblings. -/
def findAllFrom (ns : List Node) (tag : String) (filters : List (String × String)) :
    List Node :=
  match ns with
  | [] => []
  | c :: rest =>
      (if nodeMatches c tag filters then [c] else [])
        ++ findAllIn c tag filters ++ findAllFrom rest tag filters

/-- All matching descendants of a node (the node itself excluded), in
document order: bs4 Tag.find_all. -/
def findAllIn (n : Node) (tag : String) (filters : List (String × String)) : List Node :=
  match n with
  | .text _ => []
  | .elem _ _ cs => findAllFrom cs tag filters

end

/-- bs4 Tag.find: the first matching descendant, if any. -/
def findNode (n : Node) (tag : String) (filters : List (String × String)) : Option Node :=
  (findAllIn n tag filters).head?

mutual

/-- Text fragments of a list of nodes, in document order. -/
def stringsFrom (ns : List Node) : List String :=
  match ns with
  | [] => []
  | c :: rest => stringsIn c ++ stringsFrom rest

/-- Text fragments of the descendants of a node, in document order. -/
def stringsIn (n : Node) : List String :=
  match n with
  | .text s => [s]
  | .elem _ _ cs => stringsFrom cs

end

/-- bs4 get_text with strip=True and empty separator: each text fragment
stripped of surrounding whitespace, then concatenated. -/
def getTextStrip (n : Node) : String :=
  String.join ((stringsIn n).map pyStrip)

/-- Attribute of an element node (bs4 Tag attribute access); none on a
text node or a missing attribute. -/
def tagAttr (n : Node) (key : String) : Option String :=
  match n with
  | .text _ => none
  | .elem _ attrs _ => attrLookup attrs key

/-- Python str endswith, on the underlying character sequences. -/
def pyEndsWith (s suffix : String) : Bool :=
  suffix.data.isSuffixOf s.data

/-- Python substring membership (needle in haystack), on the underlying
character sequences. -/
def pyContains (needle haystack : String) : Bool :=
  decide (needle.data <:+: haystack.data)

/-- A transport-level failure: one of requests' RequestException causes.
Non-2xx statuses appear here because raise_for_status turns them into
HTTPError, itself a RequestException. -/
inductive TransportError where
  | connectionRefused
  | timeout
  | dnsFailure
  | httpStatusError (code : Nat)
deriving DecidableEq, Repr

/-- Rendering of a transport failure, standing for Python's str(e). -/
def transportMsg (e : TransportError) : String :=
  match e with
  | .connectionRefused => "connection refused"
  | .timeout => "timed out"
  | .dnsFailure => "name resolution failure"
  | .httpStatusError code => "HTTP status error " ++ toString code

/-- An exception escaping a client method: the two domain errors declared
in main.py, the built-in ConnectionError (carrying the chained transport
cause), and the uncaught AttributeError generic fault. -/
inductive PyError where
  | authenticationError (msg : String)
  | tableDataError (msg : String)
  | connectionError (msg : String) (cause : TransportError)
  | attributeError (msg : String)
deriving DecidableEq, Repr

/-- The ConnectionError built from a transport failure, as in both
except-blocks of main.py. -/
def connectionFailure (e : TransportError) : PyError :=
  .connectionError ("Connection error: " ++ transportMsg e) e

/-- An HTTP response: status code, raw body text, its parsed DOM, and the
cookies it sets. -/
structure Response where
  status : Nat
  text : String
  dom : Node
  cookies : List (String × String)

/-- requests raise_for_status: a 4xx or 5xx status raises HTTPError. -/
def raiseForStatus (r : Response) : Except TransportError Unit :=
  if 400 ≤ r.status ∧ r.status < 600 then .error (.httpStatusError r.status) else .ok ()

/-- Cookie-jar update: cookies set by a response overwrite same-named
cookies accumulated in the session. -/
def updateCookies (jar fresh : List (String × String)) : List (String × String) :=
  jar.filter (fun p => (fresh.find? (fun q => q.fst == p.fst)).isNone) ++ fresh

/-- The client state: credentials fixed at construction plus the mutable
cookie-bearing session. -/
structure PhpMyAdminClient where
  base_url : String
  username : String
  password : String
  session : List (String × String)
deriving DecidableEq, Repr

/-- PhpMyAdminClient.__init__: normalizes the base URL to end with a
slash and starts a fresh session. -/
def PhpMyAdminClient.init (base_url username password : String) : PhpMyAdminClient :=
  { base_url := if pyEndsWith base_url "/" then base_url else base_url ++ "/"
    username := username
    password := password
    session := [] }

/-- _extract_csrf_token: the first input element whose name attribute is
token; AuthenticationError when it is missing or has no value attribute. -/
def extract_csrf_token (soup : Node) : Except PyError String :=
  match findNode soup "input" [("name", "token")] with
  | none => .error (.authenticationError "Could not find CSRF token on login page.")
  | some tokenElement =>
    match tagAttr tokenElement "value" with
    | none => .error (.authenticationError "Could not find CSRF token on login page.")
    | some v => .ok v

/-- The login form data dict built in authenticate. -/
def loginData (c : PhpMyAdminClient) (token : String) : List (String × String) :=
  [("pma_username", c.username), ("pma_password", c.password),
   ("server", "1"), ("token", token)]

/-- A POST request as sent on the wire: target URL and form body. -/
structure PostRequest where
  url : String
  body : List (String × String)
deriving DecidableEq, Repr

/-- authenticate: GET the base URL, extract the CSRF token, POST the
credentials to index.php, and check the response for the login-form
marker.  Inputs: the outcome of the GET of the base URL, and the server's
response to any POST.  Returns the client (its session possibly grown),
the method's outcome, and the list of POST requests actually sent. -/
def authenticate (c : PhpMyAdminClient)
    (getResp : Except TransportError Response)
    (postResp : PostRequest → Except TransportError Response) :
    PhpMyAdminClient × Except PyError Bool × List PostRequest :=
  match getResp with
  | .error e => (c, .error (connectionFailure e), [])
  | .ok r1 =>
    let c1 : PhpMyAdminClient := { c with session := updateCookies c.session r1.cookies }
    match raiseForStatus r1 with
    | .error e => (c1, .error (connectionFailure e), [])
    | .ok _ =>
      match extract_csrf_token r1.dom with
      | .error err => (c1, .error err, [])
      | .ok token =>
        let req : PostRequest := ⟨c.base_url ++ "index.php", loginData c token⟩
        match postResp req with
        | .error e => (c1, .error (connectionFailure e), [req])
        | .ok r2 =>
          let c2 : PhpMyAdminClient := { c1 with session := updateCookies c1.session r2.cookies }
          match raiseForStatus r2 with
          | .error e => (c2, .error (connectionFailure e), [req])
          | .ok _ =>
            if pyContains "name=\"login_form\"" r2.text then
              (c2, .error (.authenticationError "Login failed. Check credentials."), [req])
            else
              (c2, .ok true, [req])

/-- _extract_headers: data-column of every th of class column_heading
under the table's thead, defaulting to N/A; an AttributeError generic
fault when the table has no thead (find returns None). -/
def extract_headers (t : Node) : Except PyError (List String) :=
  match findNode t "thead" [] with
  | none => .error (.attributeError "NoneType object has no attribute find_all")
  | some thead =>
    .ok ((findAllIn thead "th" [("class", "column_heading")]).map
      (fun th => (tagAttr th "data-column").getD "N/A"))

/-- _extract_table_data: for every tr under the table's tbody, the
stripped text of its td cells of class data; an AttributeError generic
fault when the table has no tbody. -/
def extract_table_data (t : Node) : Except PyError (List (List String)) :=
  match findNode t "tbody" [] with
  | none => .error (.attributeError "NoneType object has no attribute find_all")
  | some tbody =>
    .ok ((findAllIn tbody "tr" []).map
      (fun tr => (findAllIn tr "td" [("class", "data")]).map getTextStrip))

/-- The TableDataError message built in get_table_data. -/
def tableDataMsg (database table : String) : String :=
  "Could not find table data for " ++ database ++ "." ++ table
    ++ ". Check database/table names or permissions."

/-- get_table_data: GET the results page, locate the table of class
table_results (TableDataError naming database and table when absent),
then extract headers and rows.  Input: the outcome of the GET of
index.php with the route/db/table/pos parameters.  Returns the client
(its session possibly grown) and the method's outcome. -/
def get_table_data (c : PhpMyAdminClient) (database table : String)
    (getResp : Except TransportError Response) :
    PhpMyAdminClient × Except PyError (List String × List (List String)) :=
  match getResp with
  | .error e => (c, .error (connectionFailure e))
  | .ok r =>
    let c1 : PhpMyAdminClient := { c with session := updateCookies c.session r.cookies }
    match raiseForStatus r with
    | .error e => (c1, .error (connectionFailure e))
    | .ok _ =>
      match findNode r.dom "table" [("class", "table_results")] with
      | none => (c1, .error (.tableDataError (tableDataMsg database table)))
      | some resultTable =>
        match extract_headers resultTable with
        | .error e => (c1, .error e)
        | .ok headers =>
          match extract_table_data resultTable with
          | .error e => (c1, .error e)
          | .ok tableData => (c1, .ok (headers, tableData))

/-! ### Page fixtures

Builders for the HTML shapes the properties quantify over: a login page
around a given form-input list, and a results page around a
table_results grid with given header cells and body rows. -/

/-- A body-row cell of class data holding one text fragment. -/
def tdCell (s : String) : Node :=
  .elem "td" [("class", "data")] [.text s]

/-- A body row: a tr whose cells are data-class tds. -/
def dataRow (cells : List String) : Node :=
  .elem "tr" [] (cells.map tdCell)

/-- A header cell of class column_heading, with or without a data-column
attribute. -/
def headerCell (dataColumn : Option String) : Node :=
  .elem "th"
    (("class", "column_heading") ::
      (match dataColumn with
       | some v => [("data-column", v)]
       | none => []))
    []

/-- A results grid of class table_results: a thead row of header cells
over a tbody of data rows. -/
def resultsTable (headerCols : List (Option String)) (rows : List (List String)) : Node :=
  .elem "table" [("class", "table_results")]
    [.elem "thead" [] [.elem "tr" [] (headerCols.map headerCell)],
     .elem "tbody" [] (rows.map dataRow)]

/-- A page wrapping a single node under html and body elements. -/
def pageAround (n : Node) : Node :=
  .elem "html" [] [.elem "body" [] [n]]

/-- A login page whose form holds the given inputs. -/
def loginPage (inputs : List Node) : Node :=
  pageAround (.elem "form" [("name", "login_form"), ("action", "index.php")] inputs)

/-- A hidden input with the given name, and the given value attribute
when present. -/
def hiddenInput (nm : String) (value : Option String) : Node :=
  .elem "input"
    (("type", "hidden") :: ("name", nm) ::
      (match value with
       | some v => [("value", v)]
       | none => []))
    []

/-- A successful (status 200) response with the given body text and DOM,
setting no cookies. -/
def okResponse (text : String) (dom : Node) : Response :=
  { status := 200, text := text, dom := dom, cookies := [] }

/-- One string occurs inside another. -/
def containsSub (s sub : String) : Prop :=
  ∃ pre post, s = pre ++ sub ++ post

/-- A concrete client, as built by the example entry point. -/
def fixtureClient : PhpMyAdminClient :=
  PhpMyAdminClient.init "http://host/phpmyadmin" "user" "secret"

/-- A login page whose token input carries the value abc123. -/
def fixtureLoginDom : Node :=
  loginPage [hiddenInput "token" (some "abc123")]

/-- A login page with no input named token. -/
def fixtureLoginNoToken : Node :=
  loginPage [hiddenInput "pma_username" none]

/-- A login page whose token input has no value attribute. -/
def fixtureLoginTokenNoValue : Node :=
  loginPage [hiddenInput "token" none]

/-- A server accepting any login POST: the response no longer shows the
login form. -/
def fixturePostAccept : PostRequest → Except TransportError Response :=
  fun _ => .ok (okResponse "<html>welcome</html>" (pageAround (.text "welcome")))

/-- A results page whose grid has a tbody but no thead. -/
def fixtureNoThead : Node :=
  pageAround (.elem "table" [("class", "table_results")] [.elem "tbody" [] []])

/-- A results page with one header but rows of lengths two and zero. -/
def fixtureRagged : Node :=
  pageAround (resultsTable [some "id"] [["a", "b"], []])

/-- A results page fixture: headers id and name, rows 1/alice and 2/bob
with surrounding whitespace in the cells. -/
def fixtureResultsDom : Node :=
  pageAround (resultsTable [some "id", some "name"] [[" 1 ", "alice "], ["2", " bob"]])

/-- A page holding no element of class table_results. -/
def fixtureEmptyPage : Node :=
  pageAround (.text "nothing to see")

/-- A server whose POST endpoint times out. -/
def fixturePostFail : PostRequest → Except TransportError Response :=
  fun _ => .error .timeout

/-! ### Evaluation lemmas for the fixture pages -/

/-- A 2xx or 3xx status passes raise_for_status. -/
theorem raiseForStatus_ok (r : Response) (h : r.status < 400) : raiseForStatus r = .ok () := by
  unfold raiseForStatus
  rw [if_neg]
  omega

theorem nodeMatches_headerCell_th (d : Option String) :
    nodeMatches (headerCell d) "th" [("class", "column_heading")] = true := by
  cases d <;> rfl

theorem nodeMatches_headerCell_tbody (d : Option String) :
    nodeMatches (headerCell d) "tbody" [] = false := by
  cases d <;> rfl

theorem findAllIn_headerCell (d : Option String) (tag : String)
    (fs : List (String × String)) : findAllIn (headerCell d) tag fs = [] := by
  cases d <;> rfl

theorem findAllFrom_headerCells_th (hs : List (Option String)) :
    findAllFrom (hs.map headerCell) "th" [("class", "column_heading")] = hs.map headerCell := by
  induction hs with
  | nil => rfl
  | cons d t ih =>
      simp [findAllFrom, nodeMatches_headerCell_th, findAllIn_headerCell, ih]

theorem findAllFrom_headerCells_tbody (hs : List (Option String)) :
    findAllFrom (hs.map headerCell) "tbody" [] = [] := by
  induction hs with
  | nil => rfl
  | cons d t ih =>
      simp [findAllFrom, nodeMatches_headerCell_tbody, findAllIn_headerCell, ih]

theorem tagAttr_headerCell (d : Option String) :
    tagAttr (headerCell d) "data-column" = d := by
  cases d <;> rfl

theorem nodeMatches_tdCell_td (s : String) :
    nodeMatches (tdCell s) "td" [("class", "data")] = true := rfl

theorem nodeMatches_tdCell_tr (s : String) :
    nodeMatches (tdCell s) "tr" [] = false := rfl

theorem findAllIn_tdCell (s : String) (tag : String) (fs : List (String × String)) :
    findAllIn (tdCell s) tag fs = [] := rfl

theorem findAllFrom_tdCells_td (r : List String) :
    findAllFrom (r.map tdCell) "td" [("class", "data")] = r.map tdCell := by
  induction r with
  | nil => rfl
  | cons s t ih => simp [findAllFrom, nodeMatches_tdCell_td, findAllIn_tdCell, ih]

theorem findAllFrom_tdCells_tr (r : List String) :
    findAllFrom (r.map tdCell) "tr" [] = [] := by
  induction r with
  | nil => rfl
  | cons s t ih => simp [findAllFrom, nodeMatches_tdCell_tr, findAllIn_tdCell, ih]

theorem nodeMatches_dataRow_tr (r : List String) :
    nodeMatches (dataRow r) "tr" [] = true := rfl

theorem findAllIn_dataRow_tr (r : List String) :
    findAllIn (dataRow r) "tr" [] = [] := findAllFrom_tdCells_tr r

theorem findAllIn_dataRow_td (r : List String) :
    findAllIn (dataRow r) "td" [("class", "data")] = r.map tdCell := findAllFrom_tdCells_td r

theorem findAllFrom_dataRows_tr (rows : List (List String)) :
    findAllFrom (rows.map dataRow) "tr" [] = rows.map dataRow := by
  induction rows with
  | nil => rfl
  | cons r t ih => simp [findAllFrom, nodeMatches_dataRow_tr, findAllIn_dataRow_tr, ih]

theorem getTextStrip_tdCell (s : String) : getTextStrip (tdCell s) = pyStrip s := rfl

/-- The thead of the results-grid fixture is what find locates, and its
header extraction maps data-column with the N/A default. -/
theorem extract_headers_resultsTable (hs : List (Option String)) (rows : List (List String)) :
    extract_headers (resultsTable hs rows) = .ok (hs.map (fun d => d.getD "N/A")) := by
  have step : extract_headers (resultsTable hs rows) =
      .ok ((findAllFrom (hs.map headerCell) "th" [("class", "column_heading")] ++ []).map
        (fun th => (tagAttr th "data-column").getD "N/A")) := rfl
  rw [step, List.append_nil, findAllFrom_headerCells_th, List.map_map]
  simp [Function.comp, tagAttr_headerCell]

/-- Body extraction on the results-grid fixture: every row's cells,
whitespace-trimmed. -/
theorem extract_table_data_resultsTable (hs : List (Option String)) (rows : List (List String)) :
    extract_table_data (resultsTable hs rows) =
      .ok (rows.map (fun r => r.map pyStrip)) := by
  have e1 : findAllIn (resultsTable hs rows) "tbody" [] =
      (findAllFrom (hs.map headerCell) "tbody" [] ++ []) ++
        (Node.elem "tbody" [] (rows.map dataRow) ::
          (findAllIn (Node.elem "tbody" [] (rows.map dataRow)) "tbody" [] ++ [])) := rfl
  rw [findAllFrom_headerCells_tbody] at e1
  simp only [List.nil_append] at e1
  have hfind : findNode (resultsTable hs rows) "tbody" [] =
      some (Node.elem "tbody" [] (rows.map dataRow)) := by
    unfold findNode
    rw [e1]
    rfl
  have step2 : extract_table_data (resultsTable hs rows) =
      .ok ((findAllIn (Node.elem "tbody" [] (rows.map dataRow)) "tr" []).map
        (fun tr => (findAllIn tr "td" [("class", "data")]).map getTextStrip)) := by
    unfold extract_table_data
    rw [hfind]
  have e2 : findAllIn (Node.elem "tbody" [] (rows.map dataRow)) "tr" [] =
      findAllFrom (rows.map dataRow) "tr" [] := rfl
  rw [step2, e2, findAllFrom_dataRows_tr, List.map_map]
  simp [Function.comp, findAllIn_dataRow_td, List.map_map, getTextStrip_tdCell]

/-- A 4xx or 5xx status fails raise_for_status with that status. -/
theorem raiseForStatus_err (r : Response) (h1 : 400 ≤ r.status) (h2 : r.status < 600) :
    raiseForStatus r = .error (.httpStatusError r.status) := by
  unfold raiseForStatus
  rw [if_pos ⟨h1, h2⟩]

/-- C1: for every login-page HTML whose first form input named token
carries the value abc123 (and a GET that succeeds with a non-error
status), authenticate sends exactly one POST, addressed to index.php
under the base URL, whose body carries token=abc123 together with
pma_username, pma_password and server=1. -/
theorem C1_authenticate_posts_token (c : PhpMyAdminClient) (r1 : Response)
    (postResp : PostRequest → Except TransportError Response) (tokenElement : Node)
    (hstat : r1.status < 400)
    (hfind : findNode r1.dom "input" [("name", "token")] = some tokenElement)
    (hval : tagAttr tokenElement "value" = some "abc123") :
    ∃ req : PostRequest,
      (authenticate c (.ok r1) postResp).2.2 = [req] ∧
      req.url = c.base_url ++ "index.php" ∧
      ("token", "abc123") ∈ req.body ∧
      ("pma_username", c.username) ∈ req.body ∧
      ("pma_password", c.password) ∈ req.body ∧
      ("server", "1") ∈ req.body := by
  have htok : extract_csrf_token r1.dom = .ok "abc123" := by
    unfold extract_csrf_token
    rw [hfind]
    simp only [hval]
  refine ⟨⟨c.base_url ++ "index.php", loginData c "abc123"⟩, ?_, rfl, ?_, ?_, ?_, ?_⟩
  · simp only [authenticate, raiseForStatus_ok r1 hstat, htok]
    split
    · rfl
    · split
      · rfl
      · split <;> rfl
  · simp [loginData]
  · simp [loginData]
  · simp [loginData]
  · simp [loginData]

/-- C1 witness: the fixture login page carries token abc123 and the POST
body of the run on it contains the four fields. -/
theorem C1_witness :
    ((okResponse "" fixtureLoginDom).status < 400 ∧
      findNode (okResponse "" fixtureLoginDom).dom "input" [("name", "token")] =
        some (hiddenInput "token" (some "abc123")) ∧
      tagAttr (hiddenInput "token" (some "abc123")) "value" = some "abc123") ∧
    (∃ req : PostRequest,
      (authenticate fixtureClient (.ok (okResponse "" fixtureLoginDom))
        fixturePostAccept).2.2 = [req] ∧
      req.url = fixtureClient.base_url ++ "index.php" ∧
      ("token", "abc123") ∈ req.body ∧
      ("pma_username", fixtureClient.username) ∈ req.body ∧
      ("pma_password", fixtureClient.password) ∈ req.body ∧
      ("server", "1") ∈ req.body) :=
  ⟨⟨by decide, rfl, rfl⟩,
    C1_authenticate_posts_token fixtureClient (okResponse "" fixtureLoginDom)
      fixturePostAccept (hiddenInput "token" (some "abc123")) (by decide) rfl rfl⟩

/-- C2: for every login-page HTML with no form input named token (and a
GET that succeeds with a non-error status), authenticate fails with the
token-not-found AuthenticationError and sends no POST at all. -/
theorem C2_authenticate_missing_token (c : PhpMyAdminClient) (r1 : Response)
    (postResp : PostRequest → Except TransportError Response)
    (hstat : r1.status < 400)
    (hfind : findNode r1.dom "input" [("name", "token")] = none) :
    (authenticate c (.ok r1) postResp).2.1 =
      .error (.authenticationError "Could not find CSRF token on login page.") ∧
    (authenticate c (.ok r1) postResp).2.2 = [] := by
  have htok : extract_csrf_token r1.dom =
      .error (.authenticationError "Could not find CSRF token on login page.") := by
    unfold extract_csrf_token
    rw [hfind]
  simp [authenticate, raiseForStatus_ok r1 hstat, htok]

/-- C2 witness: on the fixture login page lacking a token input the run
raises the AuthenticationError and its POST trace is empty. -/
theorem C2_witness :
    ((okResponse "" fixtureLoginNoToken).status < 400 ∧
      findNode (okResponse "" fixtureLoginNoToken).dom "input" [("name", "token")] = none) ∧
    ((authenticate fixtureClient (.ok (okResponse "" fixtureLoginNoToken))
        fixturePostAccept).2.1 =
      .error (.authenticationError "Could not find CSRF token on login page.") ∧
     (authenticate fixtureClient (.ok (okResponse "" fixtureLoginNoToken))
        fixturePostAccept).2.2 = []) :=
  ⟨⟨by decide, rfl⟩,
    C2_authenticate_missing_token fixtureClient (okResponse "" fixtureLoginNoToken)
      fixturePostAccept (by decide) rfl⟩

/-- C10: a token input with no value attribute fails exactly like an
absent token input: the same AuthenticationError, and no POST is sent. -/
theorem C10_authenticate_token_without_value (c : PhpMyAdminClient) (r1 : Response)
    (postResp : PostRequest → Except TransportError Response) (tokenElement : Node)
    (hstat : r1.status < 400)
    (hfind : findNode r1.dom "input" [("name", "token")] = some tokenElement)
    (hval : tagAttr tokenElement "value" = none) :
    (authenticate c (.ok r1) postResp).2.1 =
      .error (.authenticationError "Could not find CSRF token on login page.") ∧
    (authenticate c (.ok r1) postResp).2.2 = [] := by
  have htok : extract_csrf_token r1.dom =
      .error (.authenticationError "Could not find CSRF token on login page.") := by
    unfold extract_csrf_token
    rw [hfind]
    simp only [hval]
  simp [authenticate, raiseForStatus_ok r1 hstat, htok]

/-- C10 witness: on the fixture login page whose token input has no value
attribute the run raises the AuthenticationError and sends no POST. -/
theorem C10_witness :
    ((okResponse "" fixtureLoginTokenNoValue).status < 400 ∧
      findNode (okResponse "" fixtureLoginTokenNoValue).dom "input" [("name", "token")] =
        some (hiddenInput "token" none) ∧
      tagAttr (hiddenInput "token" none) "value" = none) ∧
    ((authenticate fixtureClient (.ok (okResponse "" fixtureLoginTokenNoValue))
        fixturePostAccept).2.1 =
      .error (.authenticationError "Could not find CSRF token on login page.") ∧
     (authenticate fixtureClient (.ok (okResponse "" fixtureLoginTokenNoValue))
        fixturePostAccept).2.2 = []) :=
  ⟨⟨by decide, rfl, rfl⟩,
    C10_authenticate_token_without_value fixtureClient
      (okResponse "" fixtureLoginTokenNoValue)
      fixturePostAccept (hiddenInput "token" none) (by decide) rfl rfl⟩

/-- C3: once the token is extracted and both requests succeed at the
transport level, authenticate fails with the credentials-rejected
AuthenticationError exactly when the POST response body contains the
login_form marker, and otherwise returns true; no other outcome exists. -/
theorem C3_authenticate_login_form_marker (c : PhpMyAdminClient) (r1 r2 : Response)
    (tok : String) (postResp : PostRequest → Except TransportError Response)
    (hstat1 : r1.status < 400)
    (htok : extract_csrf_token r1.dom = .ok tok)
    (hpost : postResp ⟨c.base_url ++ "index.php", loginData c tok⟩ = .ok r2)
    (hstat2 : r2.status < 400) :
    (authenticate c (.ok r1) postResp).2.1 =
      if pyContains "name=\"login_form\"" r2.text then
        .error (.authenticationError "Login failed. Check credentials.")
      else
        .ok true := by
  simp only [authenticate, raiseForStatus_ok r1 hstat1, htok, hpost,
    raiseForStatus_ok r2 hstat2]
  split <;> rfl

/-- C3 witness: with the fixture token page and an accepting server whose
response lacks the login_form marker, the run returns true via the
marker conditional. -/
theorem C3_witness :
    ((okResponse "" fixtureLoginDom).status < 400 ∧
      extract_csrf_token (okResponse "" fixtureLoginDom).dom = .ok "abc123" ∧
      fixturePostAccept
          ⟨fixtureClient.base_url ++ "index.php", loginData fixtureClient "abc123"⟩ =
        .ok (okResponse "<html>welcome</html>" (pageAround (.text "welcome"))) ∧
      (okResponse "<html>welcome</html>" (pageAround (.text "welcome"))).status < 400) ∧
    (authenticate fixtureClient (.ok (okResponse "" fixtureLoginDom))
        fixturePostAccept).2.1 =
      if pyContains "name=\"login_form\""
          (okResponse "<html>welcome</html>" (pageAround (.text "welcome"))).text then
        .error (.authenticationError "Login failed. Check credentials.")
      else
        .ok true :=
  ⟨⟨by decide, rfl, rfl, by decide⟩,
    C3_authenticate_login_form_marker fixtureClient (okResponse "" fixtureLoginDom)
      (okResponse "<html>welcome</html>" (pageAround (.text "welcome"))) "abc123"
      fixturePostAccept (by decide) rfl rfl (by decide)⟩

/-- C4: on any response whose first table_results grid is the fixture
with data-column headers id and name over the two data rows 1/alice and
2/bob (cells carrying arbitrary surrounding whitespace), get_table_data
returns exactly those headers and rows in order, cells stripped; and in
general a header cell without data-column yields the literal N/A. -/
theorem C4_get_table_data_fixture (c : PhpMyAdminClient) (database table : String)
    (r : Response) (s1 s2 s3 s4 : String)
    (hstat : r.status < 400)
    (hfind : findNode r.dom "table" [("class", "table_results")] =
      some (resultsTable [some "id", some "name"] [[s1, s2], [s3, s4]]))
    (h1 : pyStrip s1 = "1") (h2 : pyStrip s2 = "alice")
    (h3 : pyStrip s3 = "2") (h4 : pyStrip s4 = "bob") :
    (get_table_data c database table (.ok r)).2 =
      .ok (["id", "name"], [["1", "alice"], ["2", "bob"]]) ∧
    ∀ (hs : List (Option String)) (rows : List (List String)),
      extract_headers (resultsTable hs rows) = .ok (hs.map (fun d => d.getD "N/A")) := by
  constructor
  · simp only [get_table_data, raiseForStatus_ok r hstat, hfind,
      extract_headers_resultsTable, extract_table_data_resultsTable]
    simp [h1, h2, h3, h4]
  · intro hs rows
    exact extract_headers_resultsTable hs rows

/-- C4 witness: the concrete fixture page with whitespace-padded cells
yields exactly the trimmed headers and rows. -/
theorem C4_witness :
    ((okResponse "" fixtureResultsDom).status < 400 ∧
      findNode (okResponse "" fixtureResultsDom).dom "table" [("class", "table_results")] =
        some (resultsTable [some "id", some "name"] [[" 1 ", "alice "], ["2", " bob"]]) ∧
      pyStrip " 1 " = "1" ∧ pyStrip "alice " = "alice" ∧
      pyStrip "2" = "2" ∧ pyStrip " bob" = "bob") ∧
    ((get_table_data fixtureClient "testDB" "users"
        (.ok (okResponse "" fixtureResultsDom))).2 =
      .ok (["id", "name"], [["1", "alice"], ["2", "bob"]]) ∧
     ∀ (hs : List (Option String)) (rows : List (List String)),
       extract_headers (resultsTable hs rows) = .ok (hs.map (fun d => d.getD "N/A"))) :=
  ⟨⟨by decide, rfl, by decide, by decide, by decide, by decide⟩,
    C4_get_table_data_fixture fixtureClient "testDB" "users"
      (okResponse "" fixtureResultsDom) " 1 " "alice " "2" " bob"
      (by decide) rfl (by decide) (by decide) (by decide) (by decide)⟩

/-- C5: on any response page with no element of class table_results,
get_table_data fails with a TableDataError whose message contains both
the database name and the table name. -/
theorem C5_table_not_found (c : PhpMyAdminClient) (database table : String)
    (r : Response)
    (hstat : r.status < 400)
    (hfind : findNode r.dom "table" [("class", "table_results")] = none) :
    (get_table_data c database table (.ok r)).2 =
      .error (.tableDataError (tableDataMsg database table)) ∧
    containsSub (tableDataMsg database table) database ∧
    containsSub (tableDataMsg database table) table := by
  refine ⟨?_,
    ⟨"Could not find table data for ",
      "." ++ table ++ ". Check database/table names or permissions.", ?_⟩,
    ⟨"Could not find table data for " ++ database ++ ".",
      ". Check database/table names or permissions.", ?_⟩⟩
  · simp [get_table_data, raiseForStatus_ok r hstat, hfind]
  · unfold tableDataMsg
    simp [String.append_assoc]
  · unfold tableDataMsg
    simp [String.append_assoc]

/-- C5 witness: on a page without the results grid, the run for testDB
and users produces the TableDataError naming both. -/
theorem C5_witness :
    ((okResponse "" fixtureEmptyPage).status < 400 ∧
      findNode (okResponse "" fixtureEmptyPage).dom "table" [("class", "table_results")] =
        none) ∧
    ((get_table_data fixtureClient "testDB" "users"
        (.ok (okResponse "" fixtureEmptyPage))).2 =
      .error (.tableDataError (tableDataMsg "testDB" "users")) ∧
     containsSub (tableDataMsg "testDB" "users") "testDB" ∧
     containsSub (tableDataMsg "testDB" "users") "users") :=
  ⟨⟨by decide, rfl⟩,
    C5_table_not_found fixtureClient "testDB" "users"
      (okResponse "" fixtureEmptyPage) (by decide) rfl⟩

/-- C6: at every transport-failure point of authenticate and of
get_table_data — failed GET, GET status turned into HTTPError, failed
POST, POST status turned into HTTPError — the caller observes the
ConnectionError built by connectionFailure, which carries the original
transport failure as its chained cause; no raw transport error escapes. -/
theorem C6_connection_error_wrapping (c : PhpMyAdminClient) (database table tok : String)
    (e : TransportError) (r1 r2 : Response)
    (postResp : PostRequest → Except TransportError Response) :
    ((authenticate c (.error e) postResp).2.1 = .error (connectionFailure e)) ∧
    (400 ≤ r1.status → r1.status < 600 →
      (authenticate c (.ok r1) postResp).2.1 =
        .error (connectionFailure (.httpStatusError r1.status))) ∧
    (r1.status < 400 → extract_csrf_token r1.dom = .ok tok →
      postResp ⟨c.base_url ++ "index.php", loginData c tok⟩ = .error e →
      (authenticate c (.ok r1) postResp).2.1 = .error (connectionFailure e)) ∧
    (r1.status < 400 → extract_csrf_token r1.dom = .ok tok →
      postResp ⟨c.base_url ++ "index.php", loginData c tok⟩ = .ok r2 →
      400 ≤ r2.status → r2.status < 600 →
      (authenticate c (.ok r1) postResp).2.1 =
        .error (connectionFailure (.httpStatusError r2.status))) ∧
    ((get_table_data c database table (.error e)).2 = .error (connectionFailure e)) ∧
    (400 ≤ r1.status → r1.status < 600 →
      (get_table_data c database table (.ok r1)).2 =
        .error (connectionFailure (.httpStatusError r1.status))) := by
  refine ⟨rfl, ?_, ?_, ?_, rfl, ?_⟩
  · intro h1 h2
    simp [authenticate, raiseForStatus_err r1 h1 h2]
  · intro h1 htok hpost
    simp [authenticate, raiseForStatus_ok r1 h1, htok, hpost]
  · intro h1 htok hpost h2 h3
    simp [authenticate, raiseForStatus_ok r1 h1, htok, hpost, raiseForStatus_err r2 h2 h3]
  · intro h1 h2
    simp [get_table_data, raiseForStatus_err r1 h1 h2]

/-- C6 witness: a timed-out POST after a successful GET surfaces as the
ConnectionError chaining the timeout. -/
theorem C6_witness :
    ((okResponse "" fixtureLoginDom).status < 400 ∧
      extract_csrf_token (okResponse "" fixtureLoginDom).dom = .ok "abc123" ∧
      fixturePostFail
          ⟨fixtureClient.base_url ++ "index.php", loginData fixtureClient "abc123"⟩ =
        .error .timeout) ∧
    (authenticate fixtureClient (.ok (okResponse "" fixtureLoginDom))
        fixturePostFail).2.1 = .error (connectionFailure .timeout) :=
  ⟨⟨by decide, rfl, rfl⟩,
    (C6_connection_error_wrapping fixtureClient "testDB" "users" "abc123" .timeout
      (okResponse "" fixtureLoginDom) (okResponse "" fixtureLoginDom)
      fixturePostFail).2.2.1 (by decide) rfl rfl⟩

/-- C7: on a page whose table_results grid lacks a thead, get_table_data
neither returns normally nor raises one of the three domain kinds: the
missing-element fault inside the header-extraction helper propagates as
the generic AttributeError of calling find_all on None. -/
theorem C7_missing_thead_generic_fault :
    (get_table_data fixtureClient "testDB" "users"
        (.ok (okResponse "" fixtureNoThead))).2 =
      .error (.attributeError "NoneType object has no attribute find_all") := rfl

/-- C9: get_table_data validates no row length: on the ragged fixture it
returns normally with a row longer than the header list and two rows of
different lengths. -/
theorem C9_no_row_length_validation :
    ∃ (headers : List String) (rows : List (List String)),
      (get_table_data fixtureClient "testDB" "users"
          (.ok (okResponse "" fixtureRagged))).2 = .ok (headers, rows) ∧
      (∃ row ∈ rows, row.length ≠ headers.length) ∧
      (∃ row1 ∈ rows, ∃ row2 ∈ rows, row1.length ≠ row2.length) :=
  ⟨["id"], [["a", "b"], []], rfl,
    ⟨["a", "b"], by decide, by decide⟩,
    ⟨["a", "b"], by decide, [], by decide, by decide⟩⟩

/-- Whatever happens, authenticate only rewrites the session field of the
client. -/
theorem authenticate_session_only (c : PhpMyAdminClient)
    (getResp : Except TransportError Response)
    (postResp : PostRequest → Except TransportError Response) :
    ∃ s, (authenticate c getResp postResp).1 = { c with session := s } := by
  rcases getResp with e | r1
  · exact ⟨c.session, rfl⟩
  · rcases hr : raiseForStatus r1 with e1 | u
    · exact ⟨_, by simp [authenticate, hr]; rfl⟩
    · rcases ht : extract_csrf_token r1.dom with te | tok
      · exact ⟨_, by simp [authenticate, hr, ht]; rfl⟩
      · rcases hp : postResp ⟨c.base_url ++ "index.php", loginData c tok⟩ with pe | r2
        · exact ⟨_, by simp [authenticate, hr, ht, hp]; rfl⟩
        · rcases hr2 : raiseForStatus r2 with e2 | u2
          · exact ⟨_, by simp [authenticate, hr, ht, hp, hr2]; rfl⟩
          · by_cases hm : pyContains "name=\"login_form\"" r2.text
            · exact ⟨_, by simp [authenticate, hr, ht, hp, hr2, hm]; rfl⟩
            · exact ⟨_, by simp [authenticate, hr, ht, hp, hr2, hm]; rfl⟩

/-- Whatever happens, get_table_data only rewrites the session field of
the client. -/
theorem get_table_data_session_only (c : PhpMyAdminClient) (database table : String)
    (getResp : Except TransportError Response) :
    ∃ s, (get_table_data c database table getResp).1 = { c with session := s } := by
  rcases getResp with e | r
  · exact ⟨c.session, rfl⟩
  · rcases hr : raiseForStatus r with e1 | u
    · exact ⟨_, by simp [get_table_data, hr]; rfl⟩
    · rcases hf : findNode r.dom "table" [("class", "table_results")] with _ | t
      · exact ⟨_, by simp [get_table_data, hr, hf]; rfl⟩
      · rcases hh : extract_headers t with he | headers
        · exact ⟨_, by simp [get_table_data, hr, hf, hh]; rfl⟩
        · rcases hd : extract_table_data t with de | rows
          · exact ⟨_, by simp [get_table_data, hr, hf, hh, hd]; rfl⟩
          · exact ⟨_, by simp [get_table_data, hr, hf, hh, hd]; rfl⟩

/-- C8: construction normalizes the base URL to end with a slash, and
neither authenticate nor get_table_data ever changes base_url, username
or password, whatever their inputs and outcome; only the session field
can differ. -/
theorem C8_credentials_immutable :
    (∀ base_url username password,
      pyEndsWith (PhpMyAdminClient.init base_url username password).base_url "/" = true) ∧
    (∀ (c : PhpMyAdminClient) (getResp : Except TransportError Response)
        (postResp : PostRequest → Except TransportError Response),
      (authenticate c getResp postResp).1.base_url = c.base_url ∧
      (authenticate c getResp postResp).1.username = c.username ∧
      (authenticate c getResp postResp).1.password = c.password) ∧
    (∀ (c : PhpMyAdminClient) (database table : String)
        (getResp : Except TransportError Response),
      (get_table_data c database table getResp).1.base_url = c.base_url ∧
      (get_table_data c database table getResp).1.username = c.username ∧
      (get_table_data c database table getResp).1.password = c.password) := by
  refine ⟨?_, ?_, ?_⟩
  · intro b u p
    unfold PhpMyAdminClient.init
    by_cases h : pyEndsWith b "/" = true
    · simp [h]
    · simp only [h, if_false]
      simp [pyEndsWith, String.data_append, List.isSuffixOf_iff_suffix]
  · intro c getResp postResp
    obtain ⟨s, hs⟩ := authenticate_session_only c getResp postResp
    rw [hs]
    exact ⟨rfl, rfl, rfl⟩
  · intro c database table getResp
    obtain ⟨s, hs⟩ := get_table_data_session_only c database table getResp
    rw [hs]
    exact ⟨rfl, rfl, rfl⟩
